import Mathlib

/-!
Verification of the sysid offline analysis core against its natural-language
specification.  The data-conditioning pipeline of `AnalysisManager.cpp`
(`ComputeAcceleration`, `CalculateCosine`, `GetMaxTime`, the three `Prepare*`
functions and `Calculate`) is embedded over exact rationals; the helpers from
`FilteringUtils` / `TrackWidthAnalysis` whose implementation files are not
among the sources (`ApplyMedianFilter`, `TrimQuasistaticData`,
`TrimStepVoltageData`, `GetNoiseFloor`, `CalculateTrackWidth`) are modelled
from the specification text and validated against the concrete expectations
of the in-tree `FilterTest` unit tests.
-/

set_option linter.unusedVariables false

namespace sysid

/-- Conditioned sample; translated from the `PreparedData` aggregate as it is
constructed in `AnalysisManager.cpp`:
`PreparedData{units::second_t{pt[0]}, pt[Voltage], pt[Position], pt[Velocity], acc, 0.0}`.
C++ doubles are modelled as exact rationals. -/
structure PreparedData where
  timestamp : ℚ
  voltage : ℚ
  position : ℚ
  velocity : ℚ
  acceleration : ℚ
  cos : ℚ
deriving DecidableEq

instance : Inhabited PreparedData := ⟨⟨0, 0, 0, 0, 0, 0⟩⟩

/-- The settings consumed by the conditioning pipeline
(`AnalysisManager::Settings`); only the fields that pipeline reads are
modelled.  `stepTestDuration = 0` means "auto". -/
structure Settings where
  motionThreshold : ℚ
  windowSize : Nat
  stepTestDuration : ℚ
deriving DecidableEq

/-- A dataset: the `(quasistatic, dynamic)` pair
`std::tuple<std::vector<PreparedData>, std::vector<PreparedData>>`. -/
abbrev Storage := List PreparedData × List PreparedData

/-- `wpi::StringMap<Storage>`, modelled as an association list in which the
most recent assignment to a key comes first. -/
abbrev Datasets := List (String × Storage)

/-- Map assignment `m[k] = v`. -/
def dsSet (m : Datasets) (k : String) (v : Storage) : Datasets := (k, v) :: m

/-- Map lookup. -/
def dsGet (m : Datasets) (k : String) : Option Storage :=
  (m.find? (fun kv => decide (kv.1 = k))).map (fun kv => kv.2)

/-- Modelled from the spec: the unspecified small cutoff `ε` used by the
quasistatic trim (`|voltage| < ε`) and by the track-width heading check. -/
def kEps : ℚ := 1 / 1000000000

/-- `std::copysign` on rationals (the sign of a zero second argument is taken
as positive, matching `+0.0`). -/
def qcopysign (x y : ℚ) : ℚ := if y < 0 then -|x| else |x|

/-- Median of a list of rationals: middle element of the sorted list (the
windows it is applied to have odd length). -/
def median (l : List ℚ) : ℚ := (l.insertionSort (· ≤ ·)).getD (l.length / 2) 0

/-- The predicate deciding whether a raw data row survives the quasistatic
trim: it must have `|voltage| ≥ ε` and `|velocity| ≥ motionThreshold`. -/
def quasiKeep (voltageCol velocityCol : Nat) (motionThreshold : ℚ)
    (pt : List ℚ) : Bool :=
  !(decide (|pt.getD voltageCol 0| < kEps) ||
    decide (|pt.getD velocityCol 0| < motionThreshold))

/-- Modelled from the spec: `TrimQuasistaticData` (its `FilteringUtils`
implementation is not among the sources, only its callers in
`AnalysisManager.cpp`): erase every point with `|velocity| < motionThreshold`
or `|voltage| < ε`, in place, preserving the order of the surviving points.
The template arguments `<S, Voltage, Velocity>` become explicit column
indices and a raw row becomes a list of rationals. -/
def trimQuasistaticData (voltageCol velocityCol : Nat) (motionThreshold : ℚ)
    (data : List (List ℚ)) : List (List ℚ) :=
  data.filter (quasiKeep voltageCol velocityCol motionThreshold)

/-- The central finite-difference acceleration used by `ComputeAcceleration`
(`AnalysisManager.cpp` lines 73-76):
`(data[i + step][Velocity] - data[i - step][Velocity]) / (data[i + step][0] - data[i - step][0])`
with `step = window / 2`. -/
def accelAt (velocityCol : Nat) (data : List (List ℚ)) (window i : Nat) : ℚ :=
  (((data.getD (i + window / 2) []).getD velocityCol 0) -
     ((data.getD (i - window / 2) []).getD velocityCol 0)) /
  (((data.getD (i + window / 2) []).getD 0 0) -
     ((data.getD (i - window / 2) []).getD 0 0))

/-- The prepared point pushed by `ComputeAcceleration` for index `i`
(timestamp, voltage, position and velocity of row `i`, the central-difference
acceleration, and `cos` initialised to `0.0`). -/
def prepAt (voltageCol posCol velocityCol : Nat) (data : List (List ℚ))
    (window i : Nat) : PreparedData :=
  ⟨(data.getD i []).getD 0 0, (data.getD i []).getD voltageCol 0,
   (data.getD i []).getD posCol 0, (data.getD i []).getD velocityCol 0,
   accelAt velocityCol data window i, 0⟩

/-- Translated from `ComputeAcceleration` (`AnalysisManager.cpp` lines 57-86):
throws (here: `none`) when `data.size() <= window`; otherwise loops
`i = step, ..., data.size() - step - 1` and pushes a prepared point unless the
computed acceleration is exactly zero. -/
def computeAcceleration (voltageCol posCol velocityCol : Nat)
    (data : List (List ℚ)) (window : Nat) : Option (List PreparedData) :=
  if data.length ≤ window then none
  else
    some ((List.range' (window / 2) (data.length - 2 * (window / 2))).filterMap
      (fun i =>
        if accelAt velocityCol data window i ≠ 0 then
          some (prepAt voltageCol posCol velocityCol data window i)
        else none))

/-- Modelled from the spec: `ApplyMedianFilter` over raw data rows (the
`FilteringUtils` implementation is not among the sources).  Per the in-tree
`FilterTest.MedianFilter` expectations the filter preserves the length of the
sequence: the first and last `(window-1)/2` points are passed through
unchanged and every interior point's velocity is replaced by the median of
its centred window.  A window that is even, smaller than 3, or longer than
the sequence fails (`InsufficientData`). -/
def applyMedianFilter (velocityCol : Nat) (data : List (List ℚ))
    (window : Nat) : Option (List (List ℚ)) :=
  if window % 2 = 1 ∧ 3 ≤ window ∧ window ≤ data.length then
    some ((List.range data.length).map (fun i =>
      if window / 2 ≤ i ∧ i < data.length - window / 2 then
        (data.getD i []).set velocityCol
          (median (((data.drop (i - window / 2)).take window).map
            (fun r => r.getD velocityCol 0)))
      else data.getD i []))
  else none

/-- Modelled from the spec: the `PreparedData` overload of `ApplyMedianFilter`
exercised by `FilterTest.MedianFilter`; same semantics as
`sysid.applyMedianFilter` but acting on the `velocity` field. -/
def applyMedianFilterPD (data : List PreparedData) (window : Nat) :
    Option (List PreparedData) :=
  if window % 2 = 1 ∧ 3 ≤ window ∧ window ≤ data.length then
    some ((List.range data.length).map (fun i =>
      if window / 2 ≤ i ∧ i < data.length - window / 2 then
        { data.getD i default with
          velocity := median (((data.drop (i - window / 2)).take window).map
            (fun p => p.velocity)) }
      else data.getD i default))
  else none

/-- Modelled from the spec: the window of the moving-average filter used
inside the noise-floor computation; the value is fixed by the in-tree
`FilterTest.NoiseFloor` and `FilterTest.StepTrim` expectations (window 2). -/
def kNoiseMeanWindow : Nat := 2

/-- Modelled from the spec: a zero-initialised moving average of width `w`
over the stream `xs` (`frc::LinearFilter<double>::MovingAverage(w)`): the
average of the last `w` inputs, missing inputs counting as zero. -/
def movingAvgAt (w : Nat) (xs : List ℚ) (i : Nat) : ℚ :=
  (((List.range w).map (fun j => if j ≤ i then xs.getD (i - j) 0 else 0)).sum) /
    (w : ℚ)

/-- Modelled from the spec: the square of `GetNoiseFloor(data, w, accessor)`
at the acceleration accessor (the `FilteringUtils` implementation is not
among the sources).  The floor is the sample standard deviation of the
deviations of each acceleration from its running moving average,
`sqrt(Σ (a_i - movavg_i)^2 / (n - 1))`; this exactly reproduces
`FilterTest.NoiseFloor` (`≈ 0.953` on its 10-point sequence).  The square is
kept so that all arithmetic stays rational; comparisons `|a| < floor` are
expressed as `a * a < floorSq`. -/
def noiseFloorSq (w : Nat) (data : List PreparedData) : ℚ :=
  let xs := data.map (fun p => p.acceleration)
  (((List.range data.length).map (fun i =>
      (xs.getD i 0 - movingAvgAt w xs i) * (xs.getD i 0 - movingAvgAt w xs i))).sum) /
    ((data.length - 1 : ℕ) : ℚ)

/-- Index of the first maximum of `|acceleration|`
(`std::max_element` with an absolute-value comparator). -/
def argmaxAbsAccel (data : List PreparedData) : Nat :=
  (List.range data.length).foldl
    (fun best i =>
      if |(data.getD best default).acceleration| <
          |(data.getD i default).acceleration| then i else best) 0

/-- Result of a step-voltage trim: the trimmed run, the (possibly updated)
settings, and the updated minimum step-test time. -/
structure StepTrimOut where
  run : List PreparedData
  settings : Settings
  minStepTime : ℚ
deriving DecidableEq

instance : Inhabited StepTrimOut := ⟨⟨[], ⟨0, 0, 0⟩, 0⟩⟩

/-- Modelled from the spec: the retained suffix after erasing everything
before the (first) maximum of `|acceleration|` (`std::max_element` prefix
trim of the step-voltage trim). -/
def stepTrimRun1 (data : List PreparedData) : List PreparedData :=
  data.drop (argmaxAbsAccel data)

/-- Modelled from the spec: the auto-computed step-test duration: the time
(relative to `t0`, the first timestamp of the untrimmed run) of the point
preceding the first retained point whose squared acceleration falls below
the squared noise floor `fsq`, or of the last retained point if none
does. -/
def stepTrimStopTime (fsq t0 : ℚ) (run1 : List PreparedData) : ℚ :=
  match (List.range run1.length).find? (fun j =>
      decide ((run1.getD j default).acceleration *
        (run1.getD j default).acceleration < fsq)) with
  | some j => (run1.getD (j - 1) default).timestamp - t0
  | none => (run1.getLast?.getD default).timestamp - t0

/-- Modelled from the spec: the step-test duration after the trim: when
`settings.stepTestDuration` is 0 (auto) it becomes the stop time capped at
`maxStepTime`, otherwise it is left unchanged. -/
def stepTrimDur (settings : Settings) (maxStepTime : ℚ)
    (data : List PreparedData) : ℚ :=
  if settings.stepTestDuration = 0 then
    min (stepTrimStopTime (noiseFloorSq kNoiseMeanWindow data)
      ((data.headD default).timestamp) (stepTrimRun1 data)) maxStepTime
  else settings.stepTestDuration

/-- Modelled from the spec: `TrimStepVoltageData(run, settings, minTime,
maxTime)` (the `FilteringUtils` implementation is not among the sources).
Semantics reconciled with the in-tree `FilterTest.StepTrim` expectations and
the spec's step-trim scenario, both of which it reproduces exactly:
 1. an empty run fails (`InsufficientData`);
 2. everything before the (first) maximum of `|acceleration|` is erased;
 3. `minTime` becomes `min(minTime, firstRetained.t - originalFirst.t)`;
 4. when `settings.stepTestDuration` is 0 (auto), it is set to
    `min(maxTime, stopTime)` where the stop time is determined by the noise
    floor of the run (`sysid.stepTrimStopTime`);
 5. the run is truncated to
    `t ≤ originalFirst.t + min(stepTestDuration, maxTime)`. -/
def trimStepVoltageData (settings : Settings) (minStepTime maxStepTime : ℚ)
    (data : List PreparedData) : Option StepTrimOut :=
  match data with
  | [] => none
  | d0 :: rest =>
    some ⟨(stepTrimRun1 (d0 :: rest)).filter (fun p =>
        decide (p.timestamp ≤ d0.timestamp +
          min (stepTrimDur settings maxStepTime (d0 :: rest)) maxStepTime)),
      { settings with
        stepTestDuration := stepTrimDur settings maxStepTime (d0 :: rest) },
      min (((d0 :: rest).getD (argmaxAbsAccel (d0 :: rest)) default).timestamp -
        d0.timestamp) minStepTime⟩

/-- Translated from `GetMaxTime` (`AnalysisManager.cpp` lines 107-114): the
larger of the two dynamic runs' time spans
`back()[timeCol] - front()[timeCol]`. -/
def getMaxTime (ffRows fbRows : List (List ℚ)) (timeCol : Nat) : ℚ :=
  max (((ffRows.getLast?.getD []).getD timeCol 0) - ((ffRows.headD []).getD timeCol 0))
      (((fbRows.getLast?.getD []).getD timeCol 0) - ((fbRows.headD []).getD timeCol 0))

/-- Translated from `CalculateCosine` (`AnalysisManager.cpp` lines 94-105): a
unit-dependent cosine of the position is written into the `cos` field for
`"Radians"`, `"Degrees"` and `"Rotations"`; any other unit leaves the point
untouched.  The transcendental `std::cos` (on doubles) and the double
constant `wpi::math::pi` are abstracted as the parameters `cosRad` and `piA`;
no claim depends on their values. -/
def calculateCosine (cosRad : ℚ → ℚ) (piA : ℚ) (unit : String)
    (data : List PreparedData) : List PreparedData :=
  data.map (fun pt =>
    if unit = "Radians" then { pt with cos := cosRad pt.position }
    else if unit = "Degrees" then { pt with cos := cosRad (pt.position * piA / 180) }
    else if unit = "Rotations" then { pt with cos := cosRad (pt.position * 2 * piA) }
    else pt)

/-- Modelled from the spec: `CalculateTrackWidth(leftDelta, rightDelta,
headingDelta)` (the `TrackWidthAnalysis` implementation is not among the
sources, only its caller in `AnalysisManager.cpp`): returns
`(|leftDelta| + |rightDelta|) / |headingDelta|` and fails with
`ZeroHeadingChange` when `|headingDelta| < ε`. -/
def calculateTrackWidth (l r headingDelta : ℚ) : Option ℚ :=
  if |headingDelta| < kEps then none
  else some ((|l| + |r|) / |headingDelta|)

/-- Translated from `AnalysisType.h`: the tagged description of a mechanism
family. -/
structure AnalysisType where
  independentVariables : Nat
  rawDataSize : Nat
  name : String
deriving DecidableEq

namespace analysis

def kDrivetrain : AnalysisType := ⟨3, 9, "Drivetrain"⟩

def kDrivetrainAngular : AnalysisType := ⟨3, 9, "Drivetrain (Angular)"⟩

def kElevator : AnalysisType := ⟨4, 4, "Elevator"⟩

def kArm : AnalysisType := ⟨4, 4, "Arm"⟩

def kSimple : AnalysisType := ⟨3, 4, "Simple"⟩

end analysis

/-- Translated from `AnalysisManager::Calculate` (`AnalysisManager.cpp` lines
548-550): the feedforward fit vector `f` is packed into
`FeedforwardGains gains = {f[0], f[1], f[2]}` whose `Kv` and `Ka` fields
(`f[1]` and `f[2]`) are what feedback-gain computation receives, for every
analysis type. -/
def calculateFeedbackKvKa (f : List ℚ) : ℚ × ℚ := (f.getD 1 0, f.getD 2 0)

/-- Modelled from the spec: the `(Kv, Ka)` entries of the fitted vector β as
ordered by the section 4.C table: 3-variable types are ordered
`(Ks, Kv, Ka)`, 4-variable types (Elevator, Arm) are ordered
`(Ks, Kg/Kcos, Kv, Ka)`. -/
def specKvKa (t : AnalysisType) (f : List ℚ) : ℚ × ℚ :=
  if t.independentVariables = 4 then (f.getD 2 0, f.getD 3 0)
  else (f.getD 1 0, f.getD 2 0)

/-! Column constants of `PrepareGeneralData` (4-column rows). -/

def kTimeCol : Nat := 0

def kVoltageCol : Nat := 1

def kPosCol : Nat := 2

def kVelCol : Nat := 3

/-! Column constants of `PrepareAngularDrivetrainData` (9-column rows). -/

def kAVoltageCol : Nat := 1

def kALPosCol : Nat := 3

def kARPosCol : Nat := 4

def kAngleCol : Nat := 7

def kAngularRateCol : Nat := 8

/-! Column constants of `PrepareLinearDrivetrainData` (9-column rows). -/

def kLVoltageCol : Nat := 1

def kRVoltageCol : Nat := 2

def kLPosCol : Nat := 3

def kRPosCol : Nat := 4

def kLVelCol : Nat := 5

def kRVelCol : Nat := 6

/-- The sign-alignment and unit-scaling loop of `PrepareGeneralData`
(`AnalysisManager.cpp` lines 153-159): `voltage = copysign(voltage,
velocity)`, position and velocity multiplied by the factor. -/
def alignGeneral (factor : ℚ) (rows : List (List ℚ)) : List (List ℚ) :=
  rows.map (fun pt =>
    ((pt.set kVoltageCol
        (qcopysign (pt.getD kVoltageCol 0) (pt.getD kVelCol 0))).set
      kPosCol ((pt.getD kPosCol 0) * factor)).set
      kVelCol ((pt.getD kVelCol 0) * factor))

/-- The sign-alignment and unit-scaling loop of
`PrepareAngularDrivetrainData` (`AnalysisManager.cpp` lines 269-275): the
voltage is doubled and sign-aligned to the angular rate; the two wheel
positions are scaled by the factor (angle and angular rate are not). -/
def alignAngular (factor : ℚ) (rows : List (List ℚ)) : List (List ℚ) :=
  rows.map (fun pt =>
    ((pt.set kAVoltageCol
        (2 * qcopysign (pt.getD kAVoltageCol 0) (pt.getD kAngularRateCol 0))).set
      kALPosCol ((pt.getD kALPosCol 0) * factor)).set
      kARPosCol ((pt.getD kARPosCol 0) * factor))

/-- The sign-alignment and unit-scaling loop of
`PrepareLinearDrivetrainData` (`AnalysisManager.cpp` lines 355-364): each
side's voltage is sign-aligned to that side's velocity; both positions and
velocities are scaled by the factor. -/
def alignLinear (factor : ℚ) (rows : List (List ℚ)) : List (List ℚ) :=
  rows.map (fun pt =>
    (((((pt.set kLVoltageCol
        (qcopysign (pt.getD kLVoltageCol 0) (pt.getD kLVelCol 0))).set
      kRVoltageCol
        (qcopysign (pt.getD kRVoltageCol 0) (pt.getD kRVelCol 0))).set
      kLPosCol ((pt.getD kLPosCol 0) * factor)).set
      kRPosCol ((pt.getD kRPosCol 0) * factor)).set
      kLVelCol ((pt.getD kLVelCol 0) * factor)).set
      kRVelCol ((pt.getD kRVelCol 0) * factor))


/-- The datasets and scratch state produced by one `Prepare*` run (the
members of `AnalysisManager` those functions write through references). -/
structure PrepareResult where
  raw : Datasets
  filtered : Datasets
  startTimes : ℚ × ℚ × ℚ × ℚ
  settings : Settings
  minDuration : ℚ
  maxDuration : ℚ
  trackWidth : Option ℚ
deriving DecidableEq

/-- Raw and median-filtered central-difference accelerations of the four test
runs for one column family (a general mechanism, or one drivetrain side). -/
structure RunAccels where
  rawSf : List PreparedData
  rawSb : List PreparedData
  rawFf : List PreparedData
  rawFb : List PreparedData
  sf0 : List PreparedData
  sb0 : List PreparedData
  ff0 : List PreparedData
  fb0 : List PreparedData
deriving DecidableEq

/-- The `ComputeAcceleration` / `ApplyMedianFilter` call block of the
`Prepare*` functions (`AnalysisManager.cpp` lines 168-194 for general data
and, once per side, lines 377-427 for linear drivetrains): acceleration on
the raw runs and on the median-filtered runs, all with the shared window. -/
def runAccels (voltageCol posCol velocityCol : Nat) (settings : Settings)
    (sfT sbT ffA fbA : List (List ℚ)) : Option RunAccels := do
  let rawSf ← computeAcceleration voltageCol posCol velocityCol sfT
    settings.windowSize
  let rawSb ← computeAcceleration voltageCol posCol velocityCol sbT
    settings.windowSize
  let rawFf ← computeAcceleration voltageCol posCol velocityCol ffA
    settings.windowSize
  let rawFb ← computeAcceleration voltageCol posCol velocityCol fbA
    settings.windowSize
  let sfM ← applyMedianFilter velocityCol sfT settings.windowSize
  let sbM ← applyMedianFilter velocityCol sbT settings.windowSize
  let ffM ← applyMedianFilter velocityCol ffA settings.windowSize
  let fbM ← applyMedianFilter velocityCol fbA settings.windowSize
  let sf0 ← computeAcceleration voltageCol posCol velocityCol sfM
    settings.windowSize
  let sb0 ← computeAcceleration voltageCol posCol velocityCol sbM
    settings.windowSize
  let ff0 ← computeAcceleration voltageCol posCol velocityCol ffM
    settings.windowSize
  let fb0 ← computeAcceleration voltageCol posCol velocityCol fbM
    settings.windowSize
  some ⟨rawSf, rawSb, rawFf, rawFb, sf0, sb0, ff0, fb0⟩

/-- Two consecutive `TrimStepVoltageData` calls, the second receiving the
settings and minimum step time updated by the first (both are passed by
reference in the C++). -/
def trimStepVoltageData2 (settings : Settings) (minT maxT : ℚ)
    (d1 d2 : List PreparedData) : Option (StepTrimOut × StepTrimOut) := do
  let r1 ← trimStepVoltageData settings minT maxT d1
  let r2 ← trimStepVoltageData r1.settings r1.minStepTime maxT d2
  some (r1, r2)

/-- The intermediate sequences computed by `PrepareGeneralData` before the
datasets are stored. -/
structure GeneralComps where
  rawSf : List PreparedData
  rawSb : List PreparedData
  rawFf : List PreparedData
  rawFb : List PreparedData
  sf : List PreparedData
  sb : List PreparedData
  ff : List PreparedData
  fb : List PreparedData
  startTimes : ℚ × ℚ × ℚ × ℚ
  settings : Settings
  minDuration : ℚ
  maxDuration : ℚ
deriving DecidableEq

/-- Translated from `PrepareGeneralData` (`AnalysisManager.cpp` lines
129-228) up to the dataset stores: alignment and scaling, quasistatic trim of
the slow runs, raw and median-filtered acceleration computation, cosine
calculation, maximum step time, step-voltage trim of the raw fast runs (with
a throw-away minimum time initialised to 0) and of the filtered fast runs
(threading the manager's minimum duration).  Accessing `front()` of an empty
prepared run (the `startTimes` reads) is modelled as failure. -/
def stage1General (cosRad : ℚ → ℚ) (piA : ℚ) (unit : String) (factor : ℚ)
    (settings : Settings) (minDuration : ℚ)
    (sfRows sbRows ffRows fbRows : List (List ℚ)) : Option GeneralComps := do
  let ffA := alignGeneral factor ffRows
  let fbA := alignGeneral factor fbRows
  let c ← runAccels kVoltageCol kPosCol kVelCol settings
    (trimQuasistaticData kVoltageCol kVelCol settings.motionThreshold
      (alignGeneral factor sfRows))
    (trimQuasistaticData kVoltageCol kVelCol settings.motionThreshold
      (alignGeneral factor sbRows))
    ffA fbA
  let sf := calculateCosine cosRad piA unit c.sf0
  let sb := calculateCosine cosRad piA unit c.sb0
  let ffC := calculateCosine cosRad piA unit c.ff0
  let fbC := calculateCosine cosRad piA unit c.fb0
  let maxT := getMaxTime ffA fbA kTimeCol
  let (r1, r2) ← trimStepVoltageData2 settings 0 maxT c.rawFf c.rawFb
  let (r3, r4) ← trimStepVoltageData2 r2.settings minDuration maxT ffC fbC
  match sf, sb, r3.run, r4.run with
  | p0 :: _, q0 :: _, u0 :: _, v0 :: _ =>
    some ⟨c.rawSf, c.rawSb, r1.run, r2.run, sf, sb, r3.run, r4.run,
      (p0.timestamp, q0.timestamp, u0.timestamp, v0.timestamp),
      r4.settings, r4.minStepTime, maxT⟩
  | _, _, _, _ => none

/-- The dataset stores of `PrepareGeneralData` (`AnalysisManager.cpp` lines
216-227): raw and filtered `Forward`, `Backward` and `Combined`, the latter
being the forward sequences concatenated with the backward ones. -/
def assembleGeneral (raw0 filtered0 : Datasets) (c : GeneralComps) :
    PrepareResult :=
  { raw := dsSet (dsSet (dsSet raw0 "Forward" (c.rawSf, c.rawFf))
      "Backward" (c.rawSb, c.rawFb)) "Combined"
      (c.rawSf ++ c.rawSb, c.rawFf ++ c.rawFb)
    filtered := dsSet (dsSet (dsSet filtered0 "Forward" (c.sf, c.ff))
      "Backward" (c.sb, c.fb)) "Combined" (c.sf ++ c.sb, c.ff ++ c.fb)
    startTimes := c.startTimes
    settings := c.settings
    minDuration := c.minDuration
    maxDuration := c.maxDuration
    trackWidth := none }

/-- `PrepareGeneralData`, end to end. -/
def prepareGeneralData (cosRad : ℚ → ℚ) (piA : ℚ) (unit : String) (factor : ℚ)
    (settings : Settings) (minDuration : ℚ) (raw0 filtered0 : Datasets)
    (sfRows sbRows ffRows fbRows : List (List ℚ)) : Option PrepareResult :=
  (stage1General cosRad piA unit factor settings minDuration
      sfRows sbRows ffRows fbRows).map (assembleGeneral raw0 filtered0)

/-- The intermediate sequences computed by `PrepareAngularDrivetrainData`. -/
structure AngularComps where
  sf : List PreparedData
  sb : List PreparedData
  ff : List PreparedData
  fb : List PreparedData
  trackWidth : ℚ
  startTimes : ℚ × ℚ × ℚ × ℚ
  settings : Settings
  minDuration : ℚ
  maxDuration : ℚ
deriving DecidableEq

/-- Translated from `PrepareAngularDrivetrainData` (`AnalysisManager.cpp`
lines 245-315) up to the dataset stores.  No median filter is applied; the
second step trim is invoked with `maxStepTime` in the `minStepTime` position,
exactly as in the source (line 299), so it is `m_maxDuration` that receives
that call's minimum-time update.  The track width comes from the endpoint
deltas of the (aligned, quasistatic-trimmed) slow-forward rows. -/
def stage1Angular (factor : ℚ) (settings : Settings) (minDuration : ℚ)
    (sfRows sbRows ffRows fbRows : List (List ℚ)) : Option AngularComps := do
  let sfT := trimQuasistaticData kAVoltageCol kAngularRateCol
    settings.motionThreshold (alignAngular factor sfRows)
  let sbT := trimQuasistaticData kAVoltageCol kAngularRateCol
    settings.motionThreshold (alignAngular factor sbRows)
  let ffA := alignAngular factor ffRows
  let fbA := alignAngular factor fbRows
  let sf ← computeAcceleration kAVoltageCol kAngleCol kAngularRateCol sfT
    settings.windowSize
  let sb ← computeAcceleration kAVoltageCol kAngleCol kAngularRateCol sbT
    settings.windowSize
  let ff0 ← computeAcceleration kAVoltageCol kAngleCol kAngularRateCol ffA
    settings.windowSize
  let fb0 ← computeAcceleration kAVoltageCol kAngleCol kAngularRateCol fbA
    settings.windowSize
  let maxT := getMaxTime ffA fbA kTimeCol
  let r1 ← trimStepVoltageData settings minDuration maxT ff0
  let r2 ← trimStepVoltageData r1.settings maxT maxT fb0
  let tw ← calculateTrackWidth
    (((sfT.getLast?.getD []).getD kALPosCol 0) - ((sfT.headD []).getD kALPosCol 0))
    (((sfT.getLast?.getD []).getD kARPosCol 0) - ((sfT.headD []).getD kARPosCol 0))
    (((sfT.getLast?.getD []).getD kAngleCol 0) - ((sfT.headD []).getD kAngleCol 0))
  match sf, sb, r1.run, r2.run with
  | p0 :: _, q0 :: _, u0 :: _, v0 :: _ =>
    some ⟨sf, sb, r1.run, r2.run, tw,
      (p0.timestamp, q0.timestamp, u0.timestamp, v0.timestamp),
      r2.settings, r1.minStepTime, r2.minStepTime⟩
  | _, _, _, _ => none

/-- The dataset stores of `PrepareAngularDrivetrainData`
(`AnalysisManager.cpp` lines 309-314): only the filtered `Forward`,
`Backward` and `Combined` keys are written; the raw datasets map is not
touched. -/
def assembleAngular (raw0 filtered0 : Datasets) (c : AngularComps) :
    PrepareResult :=
  { raw := raw0
    filtered := dsSet (dsSet (dsSet filtered0 "Forward" (c.sf, c.ff))
      "Backward" (c.sb, c.fb)) "Combined" (c.sf ++ c.sb, c.ff ++ c.fb)
    startTimes := c.startTimes
    settings := c.settings
    minDuration := c.minDuration
    maxDuration := c.maxDuration
    trackWidth := some c.trackWidth }

/-- `PrepareAngularDrivetrainData`, end to end. -/
def prepareAngularDrivetrainData (factor : ℚ) (settings : Settings)
    (minDuration : ℚ) (raw0 filtered0 : Datasets)
    (sfRows sbRows ffRows fbRows : List (List ℚ)) : Option PrepareResult :=
  (stage1Angular factor settings minDuration sfRows sbRows ffRows fbRows).map
    (assembleAngular raw0 filtered0)

/-- The intermediate sequences computed by `PrepareLinearDrivetrainData`:
one `RunAccels` per side, the step-trimmed fast runs, and the scratch
state. -/
structure LinearComps where
  left : RunAccels
  right : RunAccels
  ffl : List PreparedData
  ffr : List PreparedData
  fbl : List PreparedData
  fbr : List PreparedData
  rawFfl : List PreparedData
  rawFfr : List PreparedData
  rawFbl : List PreparedData
  rawFbr : List PreparedData
  startTimes : ℚ × ℚ × ℚ × ℚ
  settings : Settings
  minDuration : ℚ
  maxDuration : ℚ
deriving DecidableEq

/-- Translated from `PrepareLinearDrivetrainData` (`AnalysisManager.cpp`
lines 330-489) up to the dataset stores.  The four quasistatic trims (lines
368-375) are applied in sequence to the same slow-run row vectors: first
with the left columns, then with the right columns.  The acceleration
computations are grouped per side (`runAccels`); they are pure, so the
grouping does not change the result of the source's interleaving.  The raw
fast runs are trimmed in the order left-fwd, right-fwd, left-bwd, right-bwd
with a throw-away minimum time initialised to 0, then the filtered fast runs
in the same order threading the manager's minimum duration (lines
432-444). -/
def stage1Linear (factor : ℚ) (settings : Settings) (minDuration : ℚ)
    (sfRows sbRows ffRows fbRows : List (List ℚ)) : Option LinearComps := do
  let ffA := alignLinear factor ffRows
  let fbA := alignLinear factor fbRows
  let sfT := trimQuasistaticData kRVoltageCol kRVelCol settings.motionThreshold
    (trimQuasistaticData kLVoltageCol kLVelCol settings.motionThreshold
      (alignLinear factor sfRows))
  let sbT := trimQuasistaticData kRVoltageCol kRVelCol settings.motionThreshold
    (trimQuasistaticData kLVoltageCol kLVelCol settings.motionThreshold
      (alignLinear factor sbRows))
  let cl ← runAccels kLVoltageCol kLPosCol kLVelCol settings sfT sbT ffA fbA
  let cr ← runAccels kRVoltageCol kRPosCol kRVelCol settings sfT sbT ffA fbA
  let maxT := getMaxTime ffA fbA kTimeCol
  let (r1, r2) ← trimStepVoltageData2 settings 0 maxT cl.rawFf cr.rawFf
  let (r3, r4) ← trimStepVoltageData2 r2.settings r2.minStepTime maxT
    cl.rawFb cr.rawFb
  let (r5, r6) ← trimStepVoltageData2 r4.settings minDuration maxT cl.ff0 cr.ff0
  let (r7, r8) ← trimStepVoltageData2 r6.settings r6.minStepTime maxT
    cl.fb0 cr.fb0
  match cl.sf0 ++ cr.sf0, cl.sb0 ++ cr.sb0, r5.run ++ r6.run, r7.run ++ r8.run with
  | p0 :: _, q0 :: _, u0 :: _, v0 :: _ =>
    some ⟨cl, cr, r5.run, r6.run, r7.run, r8.run, r1.run, r2.run, r3.run, r4.run,
      (p0.timestamp, q0.timestamp, u0.timestamp, v0.timestamp),
      r8.settings, r8.minStepTime, maxT⟩
  | _, _, _, _ => none

/-- The dataset stores of `PrepareLinearDrivetrainData`
(`AnalysisManager.cpp` lines 446-488): merged (left then right) raw and
filtered `Forward`, `Backward` and `Combined`, plus the side-specific
`Left/Right Forward/Backward/Combined` keys; every `Combined` entry is the
forward sequences concatenated with the backward ones. -/
def assembleLinear (raw0 filtered0 : Datasets) (c : LinearComps) :
    PrepareResult :=
  { raw := dsSet (dsSet (dsSet (dsSet (dsSet (dsSet (dsSet (dsSet (dsSet raw0
      "Forward" (c.left.rawSf ++ c.right.rawSf, c.rawFfl ++ c.rawFfr))
      "Backward" (c.left.rawSb ++ c.right.rawSb, c.rawFbl ++ c.rawFbr))
      "Combined" ((c.left.rawSf ++ c.right.rawSf) ++ (c.left.rawSb ++ c.right.rawSb),
        (c.rawFfl ++ c.rawFfr) ++ (c.rawFbl ++ c.rawFbr)))
      "Left Forward" (c.left.rawSf, c.rawFfl))
      "Left Backward" (c.left.rawSb, c.rawFbl))
      "Left Combined" (c.left.rawSf ++ c.left.rawSb, c.rawFfl ++ c.rawFbl))
      "Right Forward" (c.right.rawSf, c.rawFfr))
      "Right Backward" (c.right.rawSb, c.rawFbr))
      "Right Combined" (c.right.rawSf ++ c.right.rawSb, c.rawFfr ++ c.rawFbr)
    filtered := dsSet (dsSet (dsSet (dsSet (dsSet (dsSet (dsSet (dsSet
      (dsSet filtered0
      "Forward" (c.left.sf0 ++ c.right.sf0, c.ffl ++ c.ffr))
      "Backward" (c.left.sb0 ++ c.right.sb0, c.fbl ++ c.fbr))
      "Combined" ((c.left.sf0 ++ c.right.sf0) ++ (c.left.sb0 ++ c.right.sb0),
        (c.ffl ++ c.ffr) ++ (c.fbl ++ c.fbr)))
      "Left Forward" (c.left.sf0, c.ffl))
      "Left Backward" (c.left.sb0, c.fbl))
      "Left Combined" (c.left.sf0 ++ c.left.sb0, c.ffl ++ c.fbl))
      "Right Forward" (c.right.sf0, c.ffr))
      "Right Backward" (c.right.sb0, c.fbr))
      "Right Combined" (c.right.sf0 ++ c.right.sb0, c.ffr ++ c.fbr)
    startTimes := c.startTimes
    settings := c.settings
    minDuration := c.minDuration
    maxDuration := c.maxDuration
    trackWidth := none }

/-- `PrepareLinearDrivetrainData`, end to end. -/
def prepareLinearDrivetrainData (factor : ℚ) (settings : Settings)
    (minDuration : ℚ) (raw0 filtered0 : Datasets)
    (sfRows sbRows ffRows fbRows : List (List ℚ)) : Option PrepareResult :=
  (stage1Linear factor settings minDuration sfRows sbRows ffRows fbRows).map
    (assembleLinear raw0 filtered0)


/-- Quasistatic forward run used by the concrete evaluations: 4-column rows
`[t, V, p, v]` with strictly growing velocity. -/
def wSlowF : List (List ℚ) :=
  [[0, 1, 0, 1], [1, 1, 1, 2], [2, 1, 2, 4],
   [3, 1, 3, 8], [4, 1, 4, 16], [5, 1, 5, 32]]

/-- Quasistatic backward run (negative velocities). -/
def wSlowB : List (List ℚ) :=
  [[0, 1, 0, -1], [1, 1, -1, -2], [2, 1, -2, -4],
   [3, 1, -3, -8], [4, 1, -4, -16], [5, 1, -5, -32]]

/-- Dynamic forward run. -/
def wFastF : List (List ℚ) :=
  [[0, 2, 0, 1], [1, 2, 1, 2], [2, 2, 2, 4],
   [3, 2, 3, 8], [4, 2, 4, 16], [5, 2, 5, 32]]

/-- Dynamic backward run. -/
def wFastB : List (List ℚ) :=
  [[0, 2, 0, -1], [1, 2, -1, -2], [2, 2, -2, -4],
   [3, 2, -3, -8], [4, 2, -4, -16], [5, 2, -5, -32]]

/-- Settings used by the concrete evaluations. -/
def wSettings : Settings := ⟨1, 3, 0⟩

/-- Quasistatic forward drivetrain run: 9-column rows
`[t, Vl, Vr, pl, pr, vl, vr, angle, angular rate]`. -/
def wDtSlowF : List (List ℚ) :=
  [[0, 1, 1, 0, 0, 1, 1, 0, 1], [1, 1, 1, 1, -1, 2, 2, 1, 2],
   [2, 1, 1, 2, -2, 4, 4, 4, 4], [3, 1, 1, 3, -3, 8, 8, 9, 8],
   [4, 1, 1, 4, -4, 16, 16, 16, 16], [5, 1, 1, 5, -5, 32, 32, 25, 32]]

/-- Quasistatic backward drivetrain run. -/
def wDtSlowB : List (List ℚ) :=
  [[0, 1, 1, 0, 0, -1, -1, 0, -1], [1, 1, 1, -1, 1, -2, -2, -1, -2],
   [2, 1, 1, -2, 2, -4, -4, -4, -4], [3, 1, 1, -3, 3, -8, -8, -9, -8],
   [4, 1, 1, -4, 4, -16, -16, -16, -16], [5, 1, 1, -5, 5, -32, -32, -25, -32]]

/-- Dynamic forward drivetrain run. -/
def wDtFastF : List (List ℚ) :=
  [[0, 2, 2, 0, 0, 1, 1, 0, 1], [1, 2, 2, 1, -1, 2, 2, 1, 2],
   [2, 2, 2, 2, -2, 4, 4, 4, 4], [3, 2, 2, 3, -3, 8, 8, 9, 8],
   [4, 2, 2, 4, -4, 16, 16, 16, 16], [5, 2, 2, 5, -5, 32, 32, 25, 32]]

/-- Dynamic backward drivetrain run. -/
def wDtFastB : List (List ℚ) :=
  [[0, 2, 2, 0, 0, -1, -1, 0, -1], [1, 2, 2, -1, 1, -2, -2, -1, -2],
   [2, 2, 2, -2, 2, -4, -4, -4, -4], [3, 2, 2, -3, 3, -8, -8, -9, -8],
   [4, 2, 2, -4, 4, -16, -16, -16, -16], [5, 2, 2, -5, 5, -32, -32, -25, -32]]


/-- Identity used where a concrete stand-in for `std::cos` is needed. -/
def qid : ℚ → ℚ := fun q => q

instance : Inhabited PrepareResult :=
  ⟨⟨[], [], (0, 0, 0, 0), ⟨0, 0, 0⟩, 0, 0, none⟩⟩

/-- Every point of the sequence has a zero `cos` field. -/
def allCosZero (l : List PreparedData) : Prop := ∀ p ∈ l, p.cos = 0

instance (l : List PreparedData) : Decidable (allCosZero l) :=
  List.decidableBAll _ l

/-- Every sequence stored in the dataset map has only zero `cos` fields. -/
def datasetsAllCosZero (m : Datasets) : Prop :=
  ∀ kv ∈ m, allCosZero kv.2.1 ∧ allCosZero kv.2.2

instance (m : Datasets) : Decidable (datasetsAllCosZero m) :=
  List.decidableBAll _ m

/-- Concatenation of two datasets, quasistatic with quasistatic and dynamic
with dynamic (the `Concatenate` helper of `AnalysisManager.cpp`). -/
def storConcat (a b : Storage) : Storage := (a.1 ++ b.1, a.2 ++ b.2)

/-- The `Combined` entry under `ck` is exactly the concatenation of the
`Forward` entry under `fk` and the `Backward` entry under `bk`. -/
def combinedKeys (m : Datasets) (fk bk ck : String) : Prop :=
  dsGet m ck = Option.map₂ storConcat (dsGet m fk) (dsGet m bk)

/-- The input sequence of `FilterTest.MedianFilter` (velocities
`0, 1, 10, 5, 3, 0, 1000, 7, 6, 5`; the other fields are zero). -/
def mfTestInput : List PreparedData :=
  [⟨0, 0, 0, 0, 0, 0⟩, ⟨0, 0, 0, 1, 0, 0⟩, ⟨0, 0, 0, 10, 0, 0⟩,
   ⟨0, 0, 0, 5, 0, 0⟩, ⟨0, 0, 0, 3, 0, 0⟩, ⟨0, 0, 0, 0, 0, 0⟩,
   ⟨0, 0, 0, 1000, 0, 0⟩, ⟨0, 0, 0, 7, 0, 0⟩, ⟨0, 0, 0, 6, 0, 0⟩,
   ⟨0, 0, 0, 5, 0, 0⟩]

/-- The expected output of `FilterTest.MedianFilter` (velocities
`0, 1, 5, 5, 3, 3, 7, 7, 6, 5`): both endpoints survive unchanged. -/
def mfTestExpected : List PreparedData :=
  [⟨0, 0, 0, 0, 0, 0⟩, ⟨0, 0, 0, 1, 0, 0⟩, ⟨0, 0, 0, 5, 0, 0⟩,
   ⟨0, 0, 0, 5, 0, 0⟩, ⟨0, 0, 0, 3, 0, 0⟩, ⟨0, 0, 0, 3, 0, 0⟩,
   ⟨0, 0, 0, 7, 0, 0⟩, ⟨0, 0, 0, 7, 0, 0⟩, ⟨0, 0, 0, 6, 0, 0⟩,
   ⟨0, 0, 0, 5, 0, 0⟩]

/-- The input sequence of `FilterTest.NoiseFloor` (accelerations
`0, 1, 2, 5, 0.35, 0.15, 0, 0.02, 0.01, 0` at `t = 0, ..., 9`). -/
def nfTestData : List PreparedData :=
  [⟨0, 1, 2, 3, 0, 0⟩, ⟨1, 1, 2, 3, 1, 0⟩, ⟨2, 1, 2, 3, 2, 0⟩,
   ⟨3, 1, 2, 3, 5, 0⟩, ⟨4, 1, 2, 3, 35/100, 0⟩, ⟨5, 1, 2, 3, 15/100, 0⟩,
   ⟨6, 1, 2, 3, 0, 0⟩, ⟨7, 1, 2, 3, 2/100, 0⟩, ⟨8, 1, 2, 3, 1/100, 0⟩,
   ⟨9, 1, 2, 3, 0, 0⟩]

/-- The input sequence of `FilterTest.StepTrim` (accelerations
`0, 0.25, 0.5, 0.45, 0.35, 0.15, 0, 0.02, 0.01, 0` at `t = 0, ..., 9`). -/
def stepTrimData : List PreparedData :=
  [⟨0, 1, 2, 3, 0, 0⟩, ⟨1, 1, 2, 3, 25/100, 0⟩, ⟨2, 1, 2, 3, 5/10, 0⟩,
   ⟨3, 1, 2, 3, 45/100, 0⟩, ⟨4, 1, 2, 3, 35/100, 0⟩, ⟨5, 1, 2, 3, 15/100, 0⟩,
   ⟨6, 1, 2, 3, 0, 0⟩, ⟨7, 1, 2, 3, 2/100, 0⟩, ⟨8, 1, 2, 3, 1/100, 0⟩,
   ⟨9, 1, 2, 3, 0, 0⟩]

/-- Four constant-velocity rows: every central difference is zero, so
`ComputeAcceleration` returns an empty (but successful) output. -/
def wConstRows : List (List ℚ) :=
  [[0, 1, 0, 1], [1, 1, 1, 1], [2, 1, 2, 1], [3, 1, 3, 1]]

/-- The general-mechanism result on the concrete witness runs. -/
def wGeneralRes : PrepareResult :=
  (prepareGeneralData qid 0 "Meters" 1 wSettings 100000 [] []
    wSlowF wSlowB wFastF wFastB).getD default

/-- The angular-drivetrain result on the concrete witness runs. -/
def wAngularRes : PrepareResult :=
  (prepareAngularDrivetrainData 1 wSettings 100000 [] []
    wDtSlowF wDtSlowB wDtFastF wDtFastB).getD default

/-- The linear-drivetrain result on the concrete witness runs. -/
def wLinearRes : PrepareResult :=
  (prepareLinearDrivetrainData 1 wSettings 100000 [] []
    wDtSlowF wDtSlowB wDtFastF wDtFastB).getD default

/-- A row passing the right-side quasistatic threshold but not the left-side
one: `[t, Vl, Vr, pl, pr, vl, vr, θ, ω] = [0, 1, 1, 0, 0, 0, 5, 0, 0]`. -/
def c4Row : List ℚ := [0, 1, 1, 0, 0, 0, 5, 0, 0]


/-! ### Helper lemmas -/

theorem dsGet_set_same (m : Datasets) (k : String) (v : Storage) :
    dsGet (dsSet m k v) k = some v := by
  unfold dsGet dsSet
  rw [List.find?_cons_of_pos _ (by simp)]
  rfl

theorem dsGet_set_ne (m : Datasets) (k : String) (v : Storage) (s : String)
    (h : s ≠ k) : dsGet (dsSet m k v) s = dsGet m s := by
  unfold dsGet dsSet
  rw [List.find?_cons_of_neg _ (by simpa using Ne.symm h)]

theorem getD_mem_of_lt {α : Type} (l : List α) (n : Nat) (d : α)
    (h : n < l.length) : l.getD n d ∈ l := by
  induction l generalizing n with
  | nil => simp at h
  | cons x xs ih =>
    cases n with
    | zero => simp
    | succ m =>
      simp only [List.getD_cons_succ]
      exact List.mem_cons_of_mem _ (ih m (by simpa using h))

theorem getLastD_mem {α : Type} (l : List α) (d : α) (h : l ≠ []) :
    l.getLast?.getD d ∈ l := by
  induction l with
  | nil => exact absurd rfl h
  | cons x xs ih =>
    cases xs with
    | nil => simp
    | cons y ys =>
      rw [List.getLast?_cons_cons]
      exact List.mem_cons_of_mem _ (ih (by simp))

theorem getD_map_range {α : Type} (f : Nat → α) (n k : Nat) (d : α)
    (h : k < n) : ((List.range n).map f).getD k d = f k := by
  rw [List.getD_eq_getElem?_getD, List.getElem?_map, List.getElem?_range h]
  rfl

theorem computeAcceleration_cos_zero (vc pc velc : Nat) (rows : List (List ℚ))
    (w : Nat) (out : List PreparedData)
    (h : computeAcceleration vc pc velc rows w = some out) :
    allCosZero out := by
  unfold computeAcceleration at h
  split at h
  · exact absurd h (by simp)
  · injection h with h
    subst h
    intro p hp
    obtain ⟨i, hi, hsome⟩ := List.mem_filterMap.mp hp
    split at hsome
    · injection hsome with hsome
      subst hsome
      rfl
    · exact absurd hsome (by simp)

theorem trimStepVoltageData_run_subset (settings : Settings) (minT maxT : ℚ)
    (data : List PreparedData) (o : StepTrimOut)
    (h : trimStepVoltageData settings minT maxT data = some o) :
    ∀ p ∈ o.run, p ∈ data := by
  cases data with
  | nil => simp [trimStepVoltageData] at h
  | cons d0 rest =>
    injection h with h
    subst h
    intro p hp
    have hmem := List.mem_of_mem_filter hp
    simp only [stepTrimRun1] at hmem
    exact List.drop_subset _ _ hmem

theorem trimStepVoltageData2_run_subset (settings : Settings) (minT maxT : ℚ)
    (d1 d2 : List PreparedData) (rr : StepTrimOut × StepTrimOut)
    (h : trimStepVoltageData2 settings minT maxT d1 d2 = some rr) :
    (∀ p ∈ rr.1.run, p ∈ d1) ∧ (∀ p ∈ rr.2.run, p ∈ d2) := by
  rcases h1 : trimStepVoltageData settings minT maxT d1 with _ | r1
  · simp [trimStepVoltageData2, h1] at h
  · rcases h2 : trimStepVoltageData r1.settings r1.minStepTime maxT d2 with _ | r2
    · simp [trimStepVoltageData2, h1, h2] at h
    · simp [trimStepVoltageData2, h1, h2] at h
      subst h
      exact ⟨trimStepVoltageData_run_subset _ _ _ _ _ h1,
        trimStepVoltageData_run_subset _ _ _ _ _ h2⟩

theorem calculateCosine_eq_self (cosRad : ℚ → ℚ) (piA : ℚ) (unit : String)
    (h1 : unit ≠ "Radians") (h2 : unit ≠ "Degrees") (h3 : unit ≠ "Rotations")
    (data : List PreparedData) : calculateCosine cosRad piA unit data = data := by
  unfold calculateCosine
  simp [h1, h2, h3]

theorem argmaxAbsAccel_lt_length (data : List PreparedData) (h : data ≠ []) :
    argmaxAbsAccel data < data.length := by
  have h0 : 0 < data.length := List.length_pos.mpr h
  have key : ∀ (l : List Nat) (b : Nat), (∀ x ∈ l, x < data.length) →
      b < data.length →
      l.foldl (fun best i =>
        if |(data.getD best default).acceleration| <
            |(data.getD i default).acceleration| then i else best) b <
        data.length := by
    intro l
    induction l with
    | nil => intro b _ hb; simpa using hb
    | cons x xs ih =>
      intro b hmem hb
      simp only [List.foldl_cons]
      refine ih _ (fun y hy => hmem y (List.mem_cons_of_mem _ hy)) ?_
      split
      · exact hmem x (List.mem_cons_self _ _)
      · exact hb
  exact key _ 0 (fun x hx => List.mem_range.mp hx) h0

theorem stepTrimStopTime_mem (fsq t0 : ℚ) (run1 : List PreparedData)
    (h : run1 ≠ []) :
    ∃ p ∈ run1, p.timestamp = t0 + stepTrimStopTime fsq t0 run1 := by
  unfold stepTrimStopTime
  split
  case _ j hj =>
    have hjmem : j ∈ List.range run1.length := List.mem_of_find?_eq_some hj
    have hjlen : j < run1.length := List.mem_range.mp hjmem
    exact ⟨run1.getD (j - 1) default,
      getD_mem_of_lt _ _ _ (by omega), by ring⟩
  case _ =>
    exact ⟨run1.getLast?.getD default, getLastD_mem _ _ h, by ring⟩

theorem getLast_filter_le_timestamp (b : ℚ) :
    ∀ (l : List PreparedData),
      l.Pairwise (fun p q => p.timestamp < q.timestamp) →
      (∃ p ∈ l, p.timestamp = b) →
      (((l.filter (fun p => decide (p.timestamp ≤ b))).getLast?.getD
        default).timestamp) = b := by
  intro l
  induction l with
  | nil =>
    rintro _ ⟨p, hp, _⟩
    simp at hp
  | cons x xs ih =>
    rintro hpw ⟨p, hp, hpb⟩
    rw [List.pairwise_cons] at hpw
    obtain ⟨hx, hxs⟩ := hpw
    rcases List.mem_cons.mp hp with rfl | hpxs
    · have hfilter : xs.filter (fun q => decide (q.timestamp ≤ b)) = [] := by
        rw [List.filter_eq_nil_iff]
        intro q hq
        simp only [decide_eq_true_eq, not_le]
        exact hpb ▸ hx q hq
      rw [List.filter_cons_of_pos (by simp [hpb])]
      rw [hfilter]
      simpa using hpb
    · have hxb : x.timestamp ≤ b := le_of_lt (hpb ▸ hx p hpxs)
      rw [List.filter_cons_of_pos (by simpa using hxb)]
      have hne : xs.filter (fun q => decide (q.timestamp ≤ b)) ≠ [] := by
        intro hempty
        have hmem : p ∈ xs.filter (fun q => decide (q.timestamp ≤ b)) :=
          List.mem_filter.mpr ⟨hpxs, by simp [hpb]⟩
        rw [hempty] at hmem
        exact absurd hmem (List.not_mem_nil p)
      obtain ⟨y, ys, hys⟩ := List.exists_cons_of_ne_nil hne
      rw [hys, List.getLast?_cons_cons, ← hys]
      exact ih hxs ⟨p, hpxs, hpb⟩


/-! ### Model validation against the in-tree FilterTest expectations -/

set_option maxRecDepth 40000 in
/-- `FilterTest.NoiseFloor`: the squared noise floor of its 10-point sequence
is `13619/15000 ≈ 0.9529^2`, matching the expected floor of `0.953 ± 0.001`. -/
theorem noiseFloorSq_matches_FilterTest :
    noiseFloorSq 2 nfTestData = 13619 / 15000 ∧
    ((952 : ℚ) / 1000) * ((952 : ℚ) / 1000) < 13619 / 15000 ∧
    (13619 : ℚ) / 15000 < ((954 : ℚ) / 1000) * ((954 : ℚ) / 1000) := by
  refine ⟨le_antisymm ?_ ?_, ?_, ?_⟩ <;> with_unfolding_all decide

set_option maxRecDepth 40000 in
/-- `FilterTest.StepTrim`: on its 10-point sequence the trim retains the
accelerations `0.5, 0.45, 0.35, 0.15` (timestamps 2 to 5), sets
`stepTestDuration` to 5 and reports a minimum time of 2. -/
theorem trimStepVoltageData_matches_FilterTest :
    (trimStepVoltageData wSettings 9 9 stepTrimData).map (fun o =>
      (o.run.map (fun p => (p.timestamp, p.acceleration)),
        o.settings.stepTestDuration, o.minStepTime)) =
    some ([(2, 5/10), (3, 45/100), (4, 35/100), (5, 15/100)], 5, 2) := by
  with_unfolding_all decide

/-! ### Claims -/

/-- C1: `AnalysisManager::Calculate` packs the feedforward fit vector into
`FeedforwardGains gains = {f[0], f[1], f[2]}` for every analysis type, so
feedback-gain computation receives `(f[1], f[2])` as `(Kv, Ka)`.  For the
4-parameter Elevator type the section 4.C ordering of β is
`(Ks, Kg, Kv, Ka)`, so the entries actually passed on, `(Kg, Kv)`, differ
from the `(Kv, Ka)` entries of β: evaluated at the fit vector
`β = (1, 2, 3, 4)` the code hands `(2, 3)` to feedback analysis while the
spec requires `(3, 4)`. -/
theorem C1_calculate_passes_wrong_beta_entries :
    calculateFeedbackKvKa [1, 2, 3, 4] = (2, 3) ∧
    specKvKa analysis.kElevator [1, 2, 3, 4] = (3, 4) ∧
    calculateFeedbackKvKa [1, 2, 3, 4] ≠ specKvKa analysis.kElevator [1, 2, 3, 4] := by
  refine ⟨rfl, rfl, ?_⟩
  decide

/-- C10: `ComputeAcceleration` raises the insufficient-data error exactly
when the run's length is at most the window (`data.size() <= window`), so a
run of exactly `windowSize` samples is rejected and any longer run never
raises it; a longer run may still produce an empty output when every central
difference is zero, as the four constant-velocity rows `wConstRows` show for
window 3. -/
theorem C10_compute_acceleration_failure_iff :
    (∀ (vc pc velc : Nat) (rows : List (List ℚ)) (w : Nat),
      computeAcceleration vc pc velc rows w = none ↔ rows.length ≤ w) ∧
    wConstRows.length = 3 + 1 ∧
    computeAcceleration kVoltageCol kPosCol kVelCol wConstRows 3 = some [] := by
  refine ⟨?_, rfl, by with_unfolding_all decide⟩
  intro vc pc velc rows w
  unfold computeAcceleration
  split <;> simp <;> omega

/-- C7: `CalculateTrackWidth` is `(|leftDelta| + |rightDelta|) / |headingDelta|`
whenever `|headingDelta| ≥ ε`, is invariant under negating all three deltas,
and fails with `ZeroHeadingChange` when `|headingDelta| < ε`. -/
theorem C7_track_width (l r hd : ℚ) :
    calculateTrackWidth (-l) (-r) (-hd) = calculateTrackWidth l r hd ∧
    (kEps ≤ |hd| → calculateTrackWidth l r hd = some ((|l| + |r|) / |hd|)) ∧
    (|hd| < kEps → calculateTrackWidth l r hd = none) := by
  unfold calculateTrackWidth
  refine ⟨by simp [abs_neg], fun h => ?_, fun h => ?_⟩
  · rw [if_neg (not_lt.mpr h)]
  · rw [if_pos h]

/-- C7 witness: the spec scenario `leftΔ = 1, rightΔ = -1, θΔ = 1` gives a
track width of 2, negating all three deltas gives the same, and a heading
delta of 0 fails. -/
theorem C7_track_width_witness :
    calculateTrackWidth 1 (-1) 1 = some 2 ∧
    calculateTrackWidth (-1) 1 (-1) = some 2 ∧
    calculateTrackWidth 0 0 0 = none := by
  have h := C7_track_width 1 (-1) 1
  simp only [neg_neg] at h
  have h2 := h.2.1 (by with_unfolding_all decide)
  have hval : ((|(1 : ℚ)| + |(-1 : ℚ)|) / |(1 : ℚ)|) = 2 := by
    with_unfolding_all decide
  refine ⟨by rw [h2, hval], by rw [h.1, h2, hval], ?_⟩
  exact (C7_track_width 0 0 0).2.2 (by with_unfolding_all decide)

/-- C4 counterexample: with motion threshold 1, the row `c4Row` (left
velocity 0, right velocity 5, both voltages 1) survives the right-side
quasistatic threshold on its own, but the pipeline of
`PrepareLinearDrivetrainData` (left-column trim, then right-column trim, on
the same row vector) removes it, leaving the right side's dataset without a
point that passed the right side's threshold. -/
theorem C4_shared_row_trim_counterexample :
    quasiKeep kRVoltageCol kRVelCol 1 c4Row = true ∧
    trimQuasistaticData kRVoltageCol kRVelCol 1 [c4Row] = [c4Row] ∧
    trimQuasistaticData kRVoltageCol kRVelCol 1
      (trimQuasistaticData kLVoltageCol kLVelCol 1 [c4Row]) = [] := by
  refine ⟨?_, ?_, ?_⟩ <;> with_unfolding_all decide

/-- C4 (amended): in `PrepareLinearDrivetrainData` the sign alignment,
scaling and acceleration computation do use each side's own columns, but the
quasistatic trims are applied in sequence to the shared slow-run row vector,
so the rows that survive are exactly those passing the threshold for both
the left and the right columns; a row below one side's threshold is removed
from the other side's data as well. -/
theorem C4_quasistatic_trim_conjunction (θ : ℚ) (data : List (List ℚ)) :
    trimQuasistaticData kRVoltageCol kRVelCol θ
      (trimQuasistaticData kLVoltageCol kLVelCol θ data) =
    data.filter (fun pt => quasiKeep kLVoltageCol kLVelCol θ pt &&
      quasiKeep kRVoltageCol kRVelCol θ pt) := by
  unfold trimQuasistaticData
  rw [List.filter_filter]
  apply List.filter_congr
  intro pt _
  exact Bool.and_comm _ _

/-- C6: for a run longer than the window, `ComputeAcceleration` succeeds and
its output is characterised by the loop indices `window/2 ≤ i < N - window/2`:
every output point is `prepAt` of such an index whose central-difference
acceleration `accelAt` (namely `(v[i+s] - v[i-s]) / (t[i+s] - t[i-s])` with
`s = window/2`) is non-zero, every such index with non-zero acceleration
contributes its point, and no output point has acceleration exactly 0. -/
theorem C6_compute_acceleration_characterization (vc pc velc : Nat)
    (rows : List (List ℚ)) (w : Nat) (hlen : w < rows.length) :
    computeAcceleration vc pc velc rows w ≠ none ∧
    (∀ p ∈ (computeAcceleration vc pc velc rows w).getD [],
      p.acceleration ≠ 0) ∧
    (∀ p ∈ (computeAcceleration vc pc velc rows w).getD [],
      ∃ i, w / 2 ≤ i ∧ i + w / 2 < rows.length ∧
        p = prepAt vc pc velc rows w i ∧
        p.acceleration = accelAt velc rows w i) ∧
    (∀ i, w / 2 ≤ i → i + w / 2 < rows.length →
      accelAt velc rows w i ≠ 0 →
      prepAt vc pc velc rows w i ∈
        (computeAcceleration vc pc velc rows w).getD []) := by
  have h2 : 2 * (w / 2) ≤ w := by omega
  have hnot : ¬(rows.length ≤ w) := not_le.mpr hlen
  unfold computeAcceleration
  rw [if_neg hnot]
  refine ⟨by simp, ?_, ?_, ?_⟩
  · intro p hp
    obtain ⟨i, hi, hsome⟩ := List.mem_filterMap.mp hp
    split at hsome
    · injection hsome with hsome
      subst hsome
      assumption
    · exact absurd hsome (by simp)
  · intro p hp
    obtain ⟨i, hi, hsome⟩ := List.mem_filterMap.mp hp
    rw [List.mem_range'_1] at hi
    split at hsome
    · injection hsome with hsome
      subst hsome
      exact ⟨i, hi.1, by omega, rfl, rfl⟩
    · exact absurd hsome (by simp)
  · intro i h1 h2a hne
    refine List.mem_filterMap.mpr ⟨i, ?_, by simp [hne]⟩
    rw [List.mem_range'_1]
    exact ⟨h1, by omega⟩

/-- C6 witness: the dynamic forward witness run (length 6 > 3) succeeds and
the point at index 1 (non-zero central difference) is in the output. -/
theorem C6_compute_acceleration_witness :
    computeAcceleration kVoltageCol kPosCol kVelCol wFastF 3 ≠ none ∧
    prepAt kVoltageCol kPosCol kVelCol wFastF 3 1 ∈
      (computeAcceleration kVoltageCol kPosCol kVelCol wFastF 3).getD [] := by
  have h := C6_compute_acceleration_characterization kVoltageCol kPosCol
    kVelCol wFastF 3 (by decide)
  exact ⟨h.1, h.2.2.2 1 (by decide) (by decide) (by with_unfolding_all decide)⟩


set_option maxRecDepth 40000 in
/-- C2 counterexample: on the `FilterTest.MedianFilter` input (length 10,
window 3) the filter returns the test's expected sequence, whose length is
10, not `|s| - (w - 1) = 8`: the first and last `(w-1)/2` points are kept,
not discarded. -/
theorem C2_median_filter_length_counterexample :
    applyMedianFilterPD mfTestInput 3 = some mfTestExpected ∧
    mfTestExpected.length = 10 ∧
    mfTestInput.length - (3 - 1) = 8 ∧ (10 : Nat) ≠ 8 := by
  refine ⟨by with_unfolding_all decide, rfl, rfl, by decide⟩

/-- C2 (amended): for every odd window `w ≥ 3` and every sequence of length
at least `w`, `ApplyMedianFilter` succeeds and returns a sequence of the
same length `|s|`: the first and last `(w-1)/2` points are passed through
unchanged (not discarded, not zero-padded), and each remaining point's
velocity is replaced by the median of the corresponding centred input
window. -/
theorem C2_median_filter_keeps_endpoints (data : List PreparedData) (w : Nat)
    (h1 : w % 2 = 1) (h2 : 3 ≤ w) (h3 : w ≤ data.length) :
    applyMedianFilterPD data w ≠ none ∧
    ((applyMedianFilterPD data w).getD []).length = data.length ∧
    (∀ k, k < w / 2 ∨ data.length - w / 2 ≤ k →
      ((applyMedianFilterPD data w).getD []).getD k default =
        data.getD k default) ∧
    (∀ k, w / 2 ≤ k → k < data.length - w / 2 →
      ((applyMedianFilterPD data w).getD []).getD k default =
        { data.getD k default with
          velocity := median (((data.drop (k - w / 2)).take w).map
            (fun p => p.velocity)) }) := by
  have hcond : w % 2 = 1 ∧ 3 ≤ w ∧ w ≤ data.length := ⟨h1, h2, h3⟩
  unfold applyMedianFilterPD
  rw [if_pos hcond]
  simp only [Option.getD_some]
  refine ⟨by simp, by simp, ?_, ?_⟩
  · intro k hk
    by_cases hklen : k < data.length
    · rw [getD_map_range _ _ _ _ hklen, if_neg (by omega)]
    · rw [List.getD_eq_default, List.getD_eq_default]
      · omega
      · simpa using (by omega : data.length ≤ k)
  · intro k hk1 hk2
    have hklen : k < data.length := by omega
    rw [getD_map_range _ _ _ _ hklen, if_pos ⟨hk1, hk2⟩]

/-- C2 witness: the amended statement applied to the `FilterTest` input with
window 3: the filter succeeds and preserves the length 10. -/
theorem C2_median_filter_witness :
    applyMedianFilterPD mfTestInput 3 ≠ none ∧
    ((applyMedianFilterPD mfTestInput 3).getD []).length = mfTestInput.length := by
  have h := C2_median_filter_keeps_endpoints mfTestInput 3 (by decide)
    (by decide) (by decide)
  exact ⟨h.1, h.2.1⟩


theorem combinedKeys_dsSet3 (m0 : Datasets) (fk bk ck : String)
    (qf df qb db : List PreparedData)
    (hfc : fk ≠ ck) (hfb : fk ≠ bk) (hbc : bk ≠ ck) :
    combinedKeys (dsSet (dsSet (dsSet m0 fk (qf, df)) bk (qb, db)) ck
      (qf ++ qb, df ++ db)) fk bk ck := by
  unfold combinedKeys
  rw [dsGet_set_same, dsGet_set_ne _ _ _ _ hfc, dsGet_set_ne _ _ _ _ hfb,
    dsGet_set_same, dsGet_set_ne _ _ _ _ hbc, dsGet_set_same]
  rfl

theorem combinedKeys_of_ne (m : Datasets) (k : String) (v : Storage)
    (fk bk ck : String) (hf : fk ≠ k) (hb : bk ≠ k) (hc : ck ≠ k)
    (h : combinedKeys m fk bk ck) :
    combinedKeys (dsSet m k v) fk bk ck := by
  unfold combinedKeys at h ⊢
  rw [dsGet_set_ne _ _ _ _ hc, dsGet_set_ne _ _ _ _ hf,
    dsGet_set_ne _ _ _ _ hb]
  exact h

/-- C5: for every successful `Prepare*` run and every dataset family it
publishes, the `Combined` entry's quasistatic sequence is the `Forward`
quasistatic sequence concatenated with the `Backward` one, and likewise for
the dynamic sequences (general: raw and filtered; angular: filtered; linear:
raw and filtered including the `Left`/`Right` families); the length of a
concatenated dataset is the sum of the lengths of its parts. -/
theorem C5_combined_is_forward_append_backward :
    (∀ (cosRad : ℚ → ℚ) (piA : ℚ) (unit : String) (factor : ℚ)
        (settings : Settings) (minDuration : ℚ) (raw0 filtered0 : Datasets)
        (sfRows sbRows ffRows fbRows : List (List ℚ)) (res : PrepareResult),
      prepareGeneralData cosRad piA unit factor settings minDuration
          raw0 filtered0 sfRows sbRows ffRows fbRows = some res →
        combinedKeys res.raw "Forward" "Backward" "Combined" ∧
        combinedKeys res.filtered "Forward" "Backward" "Combined") ∧
    (∀ (factor : ℚ) (settings : Settings) (minDuration : ℚ)
        (raw0 filtered0 : Datasets)
        (sfRows sbRows ffRows fbRows : List (List ℚ)) (res : PrepareResult),
      prepareAngularDrivetrainData factor settings minDuration raw0 filtered0
          sfRows sbRows ffRows fbRows = some res →
        combinedKeys res.filtered "Forward" "Backward" "Combined") ∧
    (∀ (factor : ℚ) (settings : Settings) (minDuration : ℚ)
        (raw0 filtered0 : Datasets)
        (sfRows sbRows ffRows fbRows : List (List ℚ)) (res : PrepareResult),
      prepareLinearDrivetrainData factor settings minDuration raw0 filtered0
          sfRows sbRows ffRows fbRows = some res →
        (combinedKeys res.raw "Forward" "Backward" "Combined" ∧
         combinedKeys res.raw "Left Forward" "Left Backward" "Left Combined" ∧
         combinedKeys res.raw "Right Forward" "Right Backward"
           "Right Combined") ∧
        (combinedKeys res.filtered "Forward" "Backward" "Combined" ∧
         combinedKeys res.filtered "Left Forward" "Left Backward"
           "Left Combined" ∧
         combinedKeys res.filtered "Right Forward" "Right Backward"
           "Right Combined")) ∧
    (∀ a b : Storage, (storConcat a b).1.length = a.1.length + b.1.length ∧
      (storConcat a b).2.length = a.2.length + b.2.length) := by
  refine ⟨?_, ?_, ?_, ?_⟩
  · intro cosRad piA unit factor settings minDuration raw0 filtered0
      sfRows sbRows ffRows fbRows res h
    obtain ⟨c, hc, hres⟩ := Option.map_eq_some'.mp h
    subst hres
    exact ⟨combinedKeys_dsSet3 _ _ _ _ _ _ _ _ (by decide) (by decide)
        (by decide),
      combinedKeys_dsSet3 _ _ _ _ _ _ _ _ (by decide) (by decide) (by decide)⟩
  · intro factor settings minDuration raw0 filtered0
      sfRows sbRows ffRows fbRows res h
    obtain ⟨c, hc, hres⟩ := Option.map_eq_some'.mp h
    subst hres
    exact combinedKeys_dsSet3 _ _ _ _ _ _ _ _ (by decide) (by decide)
      (by decide)
  · intro factor settings minDuration raw0 filtered0
      sfRows sbRows ffRows fbRows res h
    obtain ⟨c, hc, hres⟩ := Option.map_eq_some'.mp h
    subst hres
    constructor
    · refine ⟨?_, ?_, ?_⟩
      · refine combinedKeys_of_ne _ _ _ _ _ _ (by decide) (by decide)
          (by decide) ?_
        refine combinedKeys_of_ne _ _ _ _ _ _ (by decide) (by decide)
          (by decide) ?_
        refine combinedKeys_of_ne _ _ _ _ _ _ (by decide) (by decide)
          (by decide) ?_
        refine combinedKeys_of_ne _ _ _ _ _ _ (by decide) (by decide)
          (by decide) ?_
        refine combinedKeys_of_ne _ _ _ _ _ _ (by decide) (by decide)
          (by decide) ?_
        refine combinedKeys_of_ne _ _ _ _ _ _ (by decide) (by decide)
          (by decide) ?_
        exact combinedKeys_dsSet3 _ _ _ _ _ _ _ _ (by decide) (by decide)
          (by decide)
      · refine combinedKeys_of_ne _ _ _ _ _ _ (by decide) (by decide)
          (by decide) ?_
        refine combinedKeys_of_ne _ _ _ _ _ _ (by decide) (by decide)
          (by decide) ?_
        refine combinedKeys_of_ne _ _ _ _ _ _ (by decide) (by decide)
          (by decide) ?_
        exact combinedKeys_dsSet3 _ _ _ _ _ _ _ _ (by decide) (by decide)
          (by decide)
      · exact combinedKeys_dsSet3 _ _ _ _ _ _ _ _ (by decide) (by decide)
          (by decide)
    · refine ⟨?_, ?_, ?_⟩
      · refine combinedKeys_of_ne _ _ _ _ _ _ (by decide) (by decide)
          (by decide) ?_
        refine combinedKeys_of_ne _ _ _ _ _ _ (by decide) (by decide)
          (by decide) ?_
        refine combinedKeys_of_ne _ _ _ _ _ _ (by decide) (by decide)
          (by decide) ?_
        refine combinedKeys_of_ne _ _ _ _ _ _ (by decide) (by decide)
          (by decide) ?_
        refine combinedKeys_of_ne _ _ _ _ _ _ (by decide) (by decide)
          (by decide) ?_
        refine combinedKeys_of_ne _ _ _ _ _ _ (by decide) (by decide)
          (by decide) ?_
        exact combinedKeys_dsSet3 _ _ _ _ _ _ _ _ (by decide) (by decide)
          (by decide)
      · refine combinedKeys_of_ne _ _ _ _ _ _ (by decide) (by decide)
          (by decide) ?_
        refine combinedKeys_of_ne _ _ _ _ _ _ (by decide) (by decide)
          (by decide) ?_
        refine combinedKeys_of_ne _ _ _ _ _ _ (by decide) (by decide)
          (by decide) ?_
        exact combinedKeys_dsSet3 _ _ _ _ _ _ _ _ (by decide) (by decide)
          (by decide)
      · exact combinedKeys_dsSet3 _ _ _ _ _ _ _ _ (by decide) (by decide)
          (by decide)
  · intro a b
    exact ⟨List.length_append _ _, List.length_append _ _⟩

set_option maxRecDepth 100000 in
/-- C5 witness: the concatenation property holds on the concrete witness
results of all three pipelines. -/
theorem C5_combined_witness :
    (combinedKeys wGeneralRes.raw "Forward" "Backward" "Combined" ∧
     combinedKeys wGeneralRes.filtered "Forward" "Backward" "Combined") ∧
    combinedKeys wAngularRes.filtered "Forward" "Backward" "Combined" ∧
    combinedKeys wLinearRes.filtered "Left Forward" "Left Backward"
      "Left Combined" := by
  have hG : prepareGeneralData qid 0 "Meters" 1 wSettings 100000 [] []
      wSlowF wSlowB wFastF wFastB = some wGeneralRes := by
    with_unfolding_all decide
  have hA : prepareAngularDrivetrainData 1 wSettings 100000 [] []
      wDtSlowF wDtSlowB wDtFastF wDtFastB = some wAngularRes := by
    with_unfolding_all decide
  have hL : prepareLinearDrivetrainData 1 wSettings 100000 [] []
      wDtSlowF wDtSlowB wDtFastF wDtFastB = some wLinearRes := by
    with_unfolding_all decide
  refine ⟨C5_combined_is_forward_append_backward.1 _ _ _ _ _ _ _ _ _ _ _ _ _ hG,
    C5_combined_is_forward_append_backward.2.1 _ _ _ _ _ _ _ _ _ _ hA,
    (C5_combined_is_forward_append_backward.2.2.1 _ _ _ _ _ _ _ _ _ _ hL).2.2.1⟩

/-- C8: a successful `PrepareAngularDrivetrainData` leaves the raw datasets
map exactly as it was (so empty on a fresh manager) and populates only the
`Forward`, `Backward` and `Combined` keys of the filtered map, every other
key reading as before. -/
theorem C8_angular_raw_untouched (factor : ℚ) (settings : Settings)
    (minDuration : ℚ) (raw0 filtered0 : Datasets)
    (sfRows sbRows ffRows fbRows : List (List ℚ)) (res : PrepareResult)
    (h : prepareAngularDrivetrainData factor settings minDuration raw0
      filtered0 sfRows sbRows ffRows fbRows = some res) :
    res.raw = raw0 ∧
    (∀ k, k ≠ "Forward" → k ≠ "Backward" → k ≠ "Combined" →
      dsGet res.filtered k = dsGet filtered0 k) ∧
    (dsGet res.filtered "Forward").isSome = true ∧
    (dsGet res.filtered "Backward").isSome = true ∧
    (dsGet res.filtered "Combined").isSome = true := by
  obtain ⟨c, hc, hres⟩ := Option.map_eq_some'.mp h
  subst hres
  refine ⟨rfl, ?_, ?_, ?_, ?_⟩
  · intro k hF hB hC
    show dsGet (dsSet (dsSet (dsSet filtered0 "Forward" _) "Backward" _)
      "Combined" _) k = dsGet filtered0 k
    rw [dsGet_set_ne _ _ _ _ hC, dsGet_set_ne _ _ _ _ hB,
      dsGet_set_ne _ _ _ _ hF]
  · rw [show dsGet (assembleAngular raw0 filtered0 c).filtered "Forward" =
        some (c.sf, c.ff) from by
      show dsGet (dsSet (dsSet (dsSet filtered0 "Forward" _) "Backward" _)
        "Combined" _) "Forward" = _
      rw [dsGet_set_ne _ _ _ _ (by decide), dsGet_set_ne _ _ _ _ (by decide),
        dsGet_set_same]]
    rfl
  · rw [show dsGet (assembleAngular raw0 filtered0 c).filtered "Backward" =
        some (c.sb, c.fb) from by
      show dsGet (dsSet (dsSet (dsSet filtered0 "Forward" _) "Backward" _)
        "Combined" _) "Backward" = _
      rw [dsGet_set_ne _ _ _ _ (by decide), dsGet_set_same]]
    rfl
  · rw [show dsGet (assembleAngular raw0 filtered0 c).filtered "Combined" =
        some (c.sf ++ c.sb, c.ff ++ c.fb) from by
      show dsGet (dsSet (dsSet (dsSet filtered0 "Forward" _) "Backward" _)
        "Combined" _) "Combined" = _
      rw [dsGet_set_same]]
    rfl

set_option maxRecDepth 100000 in
/-- C8 witness: on the concrete angular witness runs with empty initial
maps the raw map stays empty, an unrelated key stays absent, and the
`Forward` key is populated. -/
theorem C8_angular_raw_untouched_witness :
    wAngularRes.raw = ([] : Datasets) ∧
    dsGet wAngularRes.filtered "Left Forward" = none ∧
    (dsGet wAngularRes.filtered "Forward").isSome = true := by
  have hA : prepareAngularDrivetrainData 1 wSettings 100000 [] []
      wDtSlowF wDtSlowB wDtFastF wDtFastB = some wAngularRes := by
    with_unfolding_all decide
  have h := C8_angular_raw_untouched 1 wSettings 100000 [] []
    wDtSlowF wDtSlowB wDtFastF wDtFastB wAngularRes hA
  refine ⟨h.1, ?_, h.2.2.1⟩
  rw [h.2.1 "Left Forward" (by decide) (by decide) (by decide)]
  rfl


theorem allCosZero_append {a b : List PreparedData} (ha : allCosZero a)
    (hb : allCosZero b) : allCosZero (a ++ b) := by
  intro p hp
  rcases List.mem_append.mp hp with hm | hm
  exacts [ha p hm, hb p hm]

theorem allCosZero_of_subset {a b : List PreparedData}
    (hsub : ∀ p ∈ a, p ∈ b) (hb : allCosZero b) : allCosZero a :=
  fun p hp => hb p (hsub p hp)

theorem runAccels_cos_zero (vc pc velc : Nat) (settings : Settings)
    (sfT sbT ffA fbA : List (List ℚ)) (acc : RunAccels)
    (h : runAccels vc pc velc settings sfT sbT ffA fbA = some acc) :
    allCosZero acc.rawSf ∧ allCosZero acc.rawSb ∧ allCosZero acc.rawFf ∧
    allCosZero acc.rawFb ∧ allCosZero acc.sf0 ∧ allCosZero acc.sb0 ∧
    allCosZero acc.ff0 ∧ allCosZero acc.fb0 := by
  simp only [runAccels, Option.bind_eq_bind, Option.bind_eq_some,
    Option.some.injEq] at h
  obtain ⟨a1, h1, a2, h2, a3, h3, a4, h4, m1, hm1, m2, hm2, m3, hm3, m4, hm4,
    b1, hb1, b2, hb2, b3, hb3, b4, hb4, heq⟩ := h
  subst heq
  exact ⟨computeAcceleration_cos_zero _ _ _ _ _ _ h1,
    computeAcceleration_cos_zero _ _ _ _ _ _ h2,
    computeAcceleration_cos_zero _ _ _ _ _ _ h3,
    computeAcceleration_cos_zero _ _ _ _ _ _ h4,
    computeAcceleration_cos_zero _ _ _ _ _ _ hb1,
    computeAcceleration_cos_zero _ _ _ _ _ _ hb2,
    computeAcceleration_cos_zero _ _ _ _ _ _ hb3,
    computeAcceleration_cos_zero _ _ _ _ _ _ hb4⟩

theorem stage1General_cos_zero (cosRad : ℚ → ℚ) (piA : ℚ) (unit : String)
    (factor : ℚ) (settings : Settings) (minDuration : ℚ)
    (sfRows sbRows ffRows fbRows : List (List ℚ)) (c : GeneralComps)
    (h1 : unit ≠ "Radians") (h2 : unit ≠ "Degrees") (h3 : unit ≠ "Rotations")
    (h : stage1General cosRad piA unit factor settings minDuration sfRows
      sbRows ffRows fbRows = some c) :
    allCosZero c.rawSf ∧ allCosZero c.rawSb ∧ allCosZero c.rawFf ∧
    allCosZero c.rawFb ∧ allCosZero c.sf ∧ allCosZero c.sb ∧
    allCosZero c.ff ∧ allCosZero c.fb := by
  simp only [stage1General,
    calculateCosine_eq_self cosRad piA unit h1 h2 h3] at h
  rcases hacc : runAccels kVoltageCol kPosCol kVelCol settings
      (trimQuasistaticData kVoltageCol kVelCol settings.motionThreshold
        (alignGeneral factor sfRows))
      (trimQuasistaticData kVoltageCol kVelCol settings.motionThreshold
        (alignGeneral factor sbRows))
      (alignGeneral factor ffRows) (alignGeneral factor fbRows) with _ | acc
  · rw [hacc] at h
    simp at h
  · rw [hacc] at h
    simp only [Option.bind_eq_bind, Option.some_bind] at h
    obtain ⟨zrsf, zrsb, zrff, zrfb, zsf, zsb, zff, zfb⟩ :=
      runAccels_cos_zero _ _ _ _ _ _ _ _ _ hacc
    rcases h12 : trimStepVoltageData2 settings 0
        (getMaxTime (alignGeneral factor ffRows) (alignGeneral factor fbRows)
          kTimeCol) acc.rawFf acc.rawFb with _ | r12
    · rw [h12] at h
      simp at h
    · rw [h12] at h
      simp only [Option.bind_eq_bind, Option.some_bind] at h
      rcases h34 : trimStepVoltageData2 r12.2.settings minDuration
          (getMaxTime (alignGeneral factor ffRows) (alignGeneral factor fbRows)
            kTimeCol) acc.ff0 acc.fb0 with _ | r34
      · rw [h34] at h
        simp at h
      · rw [h34] at h
        simp only [Option.bind_eq_bind, Option.some_bind] at h
        obtain ⟨hsub1, hsub2⟩ := trimStepVoltageData2_run_subset _ _ _ _ _ _ h12
        obtain ⟨hsub3, hsub4⟩ := trimStepVoltageData2_run_subset _ _ _ _ _ _ h34
        split at h
        · injection h with h
          subst h
          exact ⟨zrsf, zrsb, allCosZero_of_subset hsub1 zrff,
            allCosZero_of_subset hsub2 zrfb, zsf, zsb,
            allCosZero_of_subset hsub3 zff, allCosZero_of_subset hsub4 zfb⟩
        · exact absurd h (by simp)

/-- C9: for any unit outside Radians/Degrees/Rotations (the linear units),
`CalculateCosine` leaves every point unchanged, and since
`ComputeAcceleration` initialises `cos` to `0.0`, every point of every
dataset published by a successful `PrepareGeneralData` on a fresh manager
(raw and filtered alike) has `cos = 0`. -/
theorem C9_cos_zero_for_linear_units (cosRad : ℚ → ℚ) (piA factor : ℚ)
    (unit : String) (settings : Settings) (minDuration : ℚ)
    (sfRows sbRows ffRows fbRows : List (List ℚ)) (res : PrepareResult)
    (h1 : unit ≠ "Radians") (h2 : unit ≠ "Degrees") (h3 : unit ≠ "Rotations")
    (h : prepareGeneralData cosRad piA unit factor settings minDuration [] []
      sfRows sbRows ffRows fbRows = some res) :
    (∀ data : List PreparedData,
      calculateCosine cosRad piA unit data = data) ∧
    datasetsAllCosZero res.raw ∧ datasetsAllCosZero res.filtered := by
  obtain ⟨c, hc, hres⟩ := Option.map_eq_some'.mp h
  subst hres
  obtain ⟨z1, z2, z3, z4, z5, z6, z7, z8⟩ :=
    stage1General_cos_zero _ _ _ _ _ _ _ _ _ _ _ h1 h2 h3 hc
  refine ⟨calculateCosine_eq_self cosRad piA unit h1 h2 h3, ?_, ?_⟩
  · intro kv hkv
    simp only [assembleGeneral, dsSet, List.mem_cons, List.not_mem_nil,
      or_false] at hkv
    rcases hkv with rfl | rfl | rfl
    · exact ⟨allCosZero_append z1 z2, allCosZero_append z3 z4⟩
    · exact ⟨z2, z4⟩
    · exact ⟨z1, z3⟩
  · intro kv hkv
    simp only [assembleGeneral, dsSet, List.mem_cons, List.not_mem_nil,
      or_false] at hkv
    rcases hkv with rfl | rfl | rfl
    · exact ⟨allCosZero_append z5 z6, allCosZero_append z7 z8⟩
    · exact ⟨z6, z8⟩
    · exact ⟨z5, z7⟩

set_option maxRecDepth 100000 in
/-- C9 witness: on the concrete witness runs with unit `"Meters"`, every
point of every published dataset has a zero `cos` field. -/
theorem C9_cos_zero_witness :
    datasetsAllCosZero wGeneralRes.raw ∧
    datasetsAllCosZero wGeneralRes.filtered := by
  have hG : prepareGeneralData qid 0 "Meters" 1 wSettings 100000 [] []
      wSlowF wSlowB wFastF wFastB = some wGeneralRes := by
    with_unfolding_all decide
  exact (C9_cos_zero_for_linear_units _ _ _ _ _ _ _ _ _ _ _
    (by decide) (by decide) (by decide) hG).2


set_option maxRecDepth 40000 in
/-- C3 counterexample: on the `FilterTest.StepTrim` run (auto mode,
`stepTestDuration` initially 0) the trim sets `stepTestDuration` to 5, but
the trimmed dynamic run spans `t ∈ [2, 5]`, so `last.t - first.t` of the
trimmed run is 3, not 5 (the reported minimum time is 2, as in the test). -/
theorem C3_step_trim_counterexample :
    (trimStepVoltageData wSettings 9 9 stepTrimData).map (fun o =>
      (o.settings.stepTestDuration,
        (o.run.getLast?.getD default).timestamp -
          (o.run.headD default).timestamp,
        o.minStepTime)) = some (5, 3, 2) ∧ (5 : ℚ) ≠ 3 := by
  refine ⟨by with_unfolding_all decide, by with_unfolding_all decide⟩

/-- C3 (amended): for a run with strictly increasing timestamps on which the
step trim succeeds in auto mode (`settings.stepTestDuration` initially 0)
without being capped by `maxStepTime`, the resulting
`settings.stepTestDuration` equals `last.t` of the trimmed dynamic run minus
`first.t` of the original (untrimmed) run — not minus the first timestamp of
the trimmed run. -/
theorem C3_step_trim_duration (settings : Settings) (minT maxT : ℚ)
    (data : List PreparedData) (o : StepTrimOut)
    (hsort : data.Pairwise (fun p q => p.timestamp < q.timestamp))
    (h0 : settings.stepTestDuration = 0)
    (h : trimStepVoltageData settings minT maxT data = some o)
    (hlt : o.settings.stepTestDuration < maxT) :
    o.settings.stepTestDuration =
      (o.run.getLast?.getD default).timestamp -
        (data.headD default).timestamp := by
  cases data with
  | nil => simp [trimStepVoltageData] at h
  | cons d0 rest =>
    injection h with h
    subst h
    have hlt2 : stepTrimDur settings maxT (d0 :: rest) < maxT := hlt
    have hne : stepTrimRun1 (d0 :: rest) ≠ [] := by
      have hk := argmaxAbsAccel_lt_length (d0 :: rest) (by simp)
      unfold stepTrimRun1
      intro hc
      have hlen := congrArg List.length hc
      simp only [List.length_drop, List.length_nil] at hlen
      omega
    have hstop : stepTrimDur settings maxT (d0 :: rest) =
        stepTrimStopTime (noiseFloorSq kNoiseMeanWindow (d0 :: rest))
          d0.timestamp (stepTrimRun1 (d0 :: rest)) := by
      unfold stepTrimDur at hlt2 ⊢
      rw [if_pos h0] at hlt2 ⊢
      simp only [List.headD_cons] at hlt2 ⊢
      rcases le_total (stepTrimStopTime
          (noiseFloorSq kNoiseMeanWindow (d0 :: rest)) d0.timestamp
          (stepTrimRun1 (d0 :: rest))) maxT with hle | hge
      · exact min_eq_left hle
      · rw [min_eq_right hge] at hlt2
        exact absurd hlt2 (lt_irrefl _)
    have hmin : min (stepTrimDur settings maxT (d0 :: rest)) maxT =
        stepTrimDur settings maxT (d0 :: rest) :=
      min_eq_left (le_of_lt hlt2)
    obtain ⟨p, hpmem, hpt⟩ := stepTrimStopTime_mem
      (noiseFloorSq kNoiseMeanWindow (d0 :: rest)) d0.timestamp
      (stepTrimRun1 (d0 :: rest)) hne
    have hpw : (stepTrimRun1 (d0 :: rest)).Pairwise
        (fun p q => p.timestamp < q.timestamp) := by
      unfold stepTrimRun1
      exact hsort.sublist (List.drop_sublist _ _)
    have hmain := getLast_filter_le_timestamp
      (d0.timestamp + stepTrimStopTime
        (noiseFloorSq kNoiseMeanWindow (d0 :: rest)) d0.timestamp
        (stepTrimRun1 (d0 :: rest)))
      (stepTrimRun1 (d0 :: rest)) hpw ⟨p, hpmem, hpt⟩
    show stepTrimDur settings maxT (d0 :: rest) = _
    simp only [List.headD_cons]
    rw [hmin, hstop, hmain]
    ring

set_option maxRecDepth 40000 in
/-- C3 witness: the amended statement applied to the `FilterTest.StepTrim`
run: the resulting duration 5 equals the last trimmed timestamp (5) minus
the first timestamp of the original run (0). -/
theorem C3_step_trim_witness :
    ((trimStepVoltageData wSettings 9 9 stepTrimData).getD
        default).settings.stepTestDuration =
      ((((trimStepVoltageData wSettings 9 9 stepTrimData).getD
          default).run.getLast?.getD default).timestamp -
        (stepTrimData.headD default).timestamp) := by
  have hs : trimStepVoltageData wSettings 9 9 stepTrimData =
      some ((trimStepVoltageData wSettings 9 9 stepTrimData).getD default) := by
    with_unfolding_all decide
  exact C3_step_trim_duration wSettings 9 9 stepTrimData _
    (by with_unfolding_all decide) (by decide) hs
    (by with_unfolding_all decide)

end sysid
